import Mathlib

/-!
Shallow embedding of the Amazon Athena query-runner adapter
(`redash/query_runner/athena.py`) and proofs of the specified properties.

External collaborators (the pyathena driver, boto3 clients, the filesystem)
are modelled as explicit inputs: a `CursorDesc` records what the query handle
exposes, a `FetchEvent` records which outcome the object-storage download and
the surrounding retrieval steps take, and the local filesystem state for the
single per-call export file is a boolean threaded through the execution.
-/

namespace Athena

/-- Host semantic types (the `TYPE_*` constants of the host query-runner
contract). `Option SemType` models a possibly-null type. -/
inductive SemType where
  | boolean
  | integer
  | float
  | string
  | datetime
  | date
deriving DecidableEq, Repr

/-- The fixed engine-type → host-type table `_TYPE_MAPPINGS`
(athena.py lines 32–47), in source order. -/
def _TYPE_MAPPINGS : List (String × SemType) :=
  [ ("boolean", SemType.boolean)
  , ("tinyint", SemType.integer)
  , ("smallint", SemType.integer)
  , ("integer", SemType.integer)
  , ("bigint", SemType.integer)
  , ("double", SemType.float)
  , ("varchar", SemType.string)
  , ("timestamp", SemType.datetime)
  , ("date", SemType.date)
  , ("varbinary", SemType.string)
  , ("array", SemType.string)
  , ("map", SemType.string)
  , ("row", SemType.string)
  , ("decimal", SemType.float) ]

/-- `_TYPE_MAPPINGS.get(t, None)`: dictionary lookup with `None` default, as
used at athena.py lines 251 and 318. -/
def typeFor (t : String) : Option SemType :=
  _TYPE_MAPPINGS.lookup t

/-- JSON scalar values as they appear in the serialized result payload. -/
inductive JsonVal where
  | str (s : String)
  | num (q : ℚ)
  | boolean (b : Bool)
  | null
deriving DecidableEq, Repr

/-- A downloaded export file, already split into the header record and the
data records of the delimited text (athena.py lines 316–317 read it with
`csv.DictReader`, whose first record is the header). -/
structure CsvFile where
  header : List String
  records : List (List String)
deriving DecidableEq, Repr

/-- `list(csv.DictReader(f))` (athena.py line 317): each data record becomes a
mapping from header names to the record's raw text fields, in header order.
This zip model is exact precisely for a non-empty header of distinct names
and rectangular records (every record as long as the header) — the format of
a genuine engine export.  Outside that domain `csv.DictReader` differs: a
record shorter than the header gets its missing keys filled with the null
`restval`, a longer record collects its extra fields under the `restkey`,
and an entirely empty record is skipped; theorems about this definition
therefore carry the rectangularity and distinctness hypotheses. -/
def dictReaderRows (f : CsvFile) : List (List (String × JsonVal)) :=
  f.records.map (fun rec => (f.header.zip rec).map (fun p => (p.1, JsonVal.str p.2)))

/-- A column descriptor of the result payload: `{name, type}`. -/
structure Column where
  name : String
  type : Option SemType
deriving DecidableEq, Repr

/-- Modelled from the spec: the host base-class helper `fetch_columns` (not
under src/; athena.py calls it at lines 253 and 319) builds the result's
column descriptors from the (name, mapped type) pairs of the query handle's
column descriptions, in description order. -/
def fetch_columns (cols : List (String × Option SemType)) : List Column :=
  cols.map (fun c => { name := c.1, type := c.2 })

/-- The `metadata` object of the result payload built by
`get_query_result_from_file` (athena.py lines 327–330); `query_cost` is kept
as a field so that its absence on this path is expressible. -/
structure Metadata where
  data_scanned : Option Nat
  athena_query_id : String
  query_cost : Option ℚ
deriving DecidableEq, Repr

/-- The result payload `data` (athena.py lines 324–331). -/
structure ResultData where
  columns : List Column
  rows : List (List (String × JsonVal))
  metadata : Metadata
deriving DecidableEq, Repr

/-- The serialized JSON document returned as `json_data`: either
`json_dumps(data)` of a result payload, or `json_dumps({})` (athena.py
line 342). -/
inductive JsonDoc where
  | result (d : ResultData)
  | empty
deriving DecidableEq, Repr

/-- What the query handle (pyathena cursor) exposes.  `none` in `queryId` or
`dataScannedInBytes` models the attribute being absent (an `AttributeError`
on access); `outputLocation = .error m` models the `output_location` access
raising an exception whose message is `m`. -/
structure CursorDesc where
  queryId : Option String
  outputLocation : Except String (Option String)
  description : List (String × String)
  dataScannedInBytes : Option Nat
deriving Repr

/-- Python exceptions that can escape the adapter in the modelled paths. -/
inductive PyExn where
  | typeError
  | attributeError
deriving DecidableEq, Repr

/-- How a call to `get_query_result_from_file` ends: returning the
`(json_data, error)` pair, or with an exception propagating. -/
inductive Outcome where
  | ret (jsonData : Option JsonDoc) (error : Option String)
  | exn (e : PyExn)
deriving DecidableEq, Repr

/-- Observable effect of one retrieval call: its outcome, how many
`cursor.cancel()` calls were issued, whether the local export file was
created, and whether it still exists afterwards. -/
structure RunEffect where
  outcome : Outcome
  cancels : Nat
  fileCreated : Bool
  fileExists : Bool
deriving DecidableEq, Repr

/-- Which outcome the externally-driven part of the retrieval takes, once the
export location has been obtained and found usable.  "BeforeFile" events
strike before `athena_query_results_file = athena_query_id` (line 313) and the
`open(..., 'wb')` (line 314) run; "AfterFile" events strike once the local
file exists. -/
inductive FetchEvent where
  | success (f : CsvFile)
  | clientError (msg : String)
  | interruptBeforeFile
  | interruptAfterFile
  | failBeforeFile (msg : String)
  | failAfterFile (msg : String)
deriving DecidableEq, Repr

/-- `remove_file` (athena.py lines 358–362): `os.remove(None)` raises
`TypeError`, which the `except OSError` clause does not catch; on a string
filename the file is removed and a missing-file `OSError` is swallowed.
Input and output carry whether the (single) local file is present. -/
def remove_file (file : Option String) (present : Bool) : Option PyExn × Bool :=
  match file with
  | none => (some PyExn.typeError, present)
  | some _ => (none, false)

/-- `if cursor.query_id: cursor.cancel()` as run inside an except handler
(athena.py lines 334–335 and 347–348): if the attribute is absent the access
raises `AttributeError` out of the handler; an empty string is falsy and
issues no cancel; otherwise exactly one cancel is issued. -/
def handlerCancel (c : CursorDesc) : Option PyExn × Nat :=
  match c.queryId with
  | none => (some PyExn.attributeError, 0)
  | some q => (none, if q = "" then 0 else 1)

/-- `not athena_output_location or athena_output_location == ''`
(athena.py line 307), negated: the location is usable iff it is a non-empty
string. -/
def locationUsable : Option String → Bool
  | none => false
  | some s => !(s == "")

/-- Boolean list-prefix test on characters, used for the substring checks of
the `ClientError` handler. -/
def listPrefixOf : List Char → List Char → Bool
  | [], _ => true
  | _ :: _, [] => false
  | a :: as, b :: bs => a == b && listPrefixOf as bs

/-- Boolean list-infix test on characters. -/
def listInfixOf : List Char → List Char → Bool
  | n, [] => n.isEmpty
  | n, b :: bs => listPrefixOf n (b :: bs) || listInfixOf n bs

/-- Python's `needle in haystack` on strings. -/
def strComprises (hay needle : String) : Bool :=
  listInfixOf needle.data hay.data

/-- `'404' in e.message and 'HeadObject' in e.message` (athena.py line 340):
the distinguishable not-found storage fault. -/
def isNotFound (msg : String) : Bool :=
  strComprises msg "404" && strComprises msg "HeadObject"

/-- State of the `try`/`except` phase of `get_query_result_from_file` just
before the `finally` block runs: the pending outcome (a return pair or an
in-flight exception), the value of the `athena_query_results_file` variable,
whether the local file was created and is present, the cancel count, and
whether the pending return came from one of the early `return` statements
inside the `try` (lines 305 and 308) rather than from falling through. -/
structure TryState where
  pending : Outcome
  file : Option String
  created : Bool
  present : Bool
  cancels : Nat
  earlyReturn : Bool
deriving DecidableEq, Repr

/-- The `try`/`except` phase of `get_query_result_from_file`
(athena.py lines 289–351), driven by the cursor description and the fetch
event. -/
def tryPhase (c : CursorDesc) (randId : String) (ev : FetchEvent) : TryState :=
  let qid := c.queryId.getD ("temp_" ++ randId)
  match c.outputLocation with
  | Except.error emsg =>
      { pending := Outcome.ret none (some emsg), file := none, created := false
      , present := false, cancels := 0, earlyReturn := true }
  | Except.ok loc =>
    if locationUsable loc = false then
      { pending := Outcome.ret none none, file := none, created := false
      , present := false, cancels := 0, earlyReturn := true }
    else
      match ev with
      | FetchEvent.interruptBeforeFile =>
          match handlerCancel c with
          | (some e, n) =>
              { pending := Outcome.exn e, file := none, created := false
              , present := false, cancels := n, earlyReturn := false }
          | (none, n) =>
              { pending := Outcome.ret none (some "Query cancelled by user.")
              , file := none, created := false, present := false
              , cancels := n, earlyReturn := false }
      | FetchEvent.failBeforeFile emsg =>
          match handlerCancel c with
          | (some e, n) =>
              { pending := Outcome.exn e, file := none, created := false
              , present := false, cancels := n, earlyReturn := false }
          | (none, n) =>
              { pending := Outcome.ret none (some emsg), file := none
              , created := false, present := false, cancels := n
              , earlyReturn := false }
      | FetchEvent.interruptAfterFile =>
          match handlerCancel c with
          | (some e, n) =>
              { pending := Outcome.exn e, file := some qid, created := true
              , present := true, cancels := n, earlyReturn := false }
          | (none, n) =>
              { pending := Outcome.ret none (some "Query cancelled by user.")
              , file := some qid, created := true, present := true
              , cancels := n, earlyReturn := false }
      | FetchEvent.failAfterFile emsg =>
          match handlerCancel c with
          | (some e, n) =>
              { pending := Outcome.exn e, file := some qid, created := true
              , present := true, cancels := n, earlyReturn := false }
          | (none, n) =>
              { pending := Outcome.ret none (some emsg), file := some qid
              , created := true, present := true, cancels := n
              , earlyReturn := false }
      | FetchEvent.clientError emsg =>
          if isNotFound emsg then
            { pending := Outcome.ret (some JsonDoc.empty) none, file := some qid
            , created := true, present := true, cancels := 0
            , earlyReturn := false }
          else
            { pending := Outcome.ret none (some emsg), file := some qid
            , created := true, present := true, cancels := 0
            , earlyReturn := false }
      | FetchEvent.success f =>
          let rows := dictReaderRows f
          let columns := fetch_columns (c.description.map (fun i => (i.1, typeFor i.2)))
          let d : ResultData :=
            { columns := columns, rows := rows
            , metadata :=
                { data_scanned := c.dataScannedInBytes
                , athena_query_id := qid, query_cost := none } }
          { pending := Outcome.ret (some (JsonDoc.result d)) none
          , file := some qid, created := true, present := true, cancels := 0
          , earlyReturn := false }

/-- The `finally` block (athena.py lines 352–353) followed by the second,
post-`try` `remove_file` call and the return (lines 355–356).  An exception
raised by the `finally` block's `remove_file` replaces any pending return or
exception; the second `remove_file` call only runs when the `try` fell
through to line 355. -/
def applyCleanup (s : TryState) : RunEffect :=
  match remove_file s.file s.present with
  | (some e, p2) =>
      { outcome := Outcome.exn e, cancels := s.cancels
      , fileCreated := s.created, fileExists := p2 }
  | (none, p2) =>
      match s.pending with
      | Outcome.exn e =>
          { outcome := Outcome.exn e, cancels := s.cancels
          , fileCreated := s.created, fileExists := p2 }
      | Outcome.ret j err =>
          if s.earlyReturn then
            { outcome := Outcome.ret j err, cancels := s.cancels
            , fileCreated := s.created, fileExists := p2 }
          else
            match remove_file s.file p2 with
            | (some e, p3) =>
                { outcome := Outcome.exn e, cancels := s.cancels
                , fileCreated := s.created, fileExists := p3 }
            | (none, p3) =>
                { outcome := Outcome.ret j err, cancels := s.cancels
                , fileCreated := s.created, fileExists := p3 }

/-- `get_query_result_from_file` (athena.py lines 288–356). -/
def get_query_result_from_file (c : CursorDesc) (randId : String)
    (ev : FetchEvent) : RunEffect :=
  applyCleanup (tryPhase c randId ev)

/-- `run_query` (athena.py lines 233–245): connect and execute are external
calls summarized by the cursor description; the result is produced by
`get_query_result_from_file` (the cursor-streamed call at line 246 is
commented out). -/
def run_query (c : CursorDesc) (randId : String) (ev : FetchEvent) : RunEffect :=
  get_query_result_from_file c randId ev

/-- One property entry of the configuration schema: its JSON-schema `type`,
its `title`, and an optional `default`. -/
structure PropSpec where
  type : String
  title : String
  defaultVal : Option JsonVal
deriving DecidableEq, Repr

/-- The configuration schema object assembled by `configuration_schema`
(athena.py lines 70–147): named properties plus the `required`, `order`,
`extra_options` and `secret` name lists. -/
structure ConfigurationSchema where
  properties : List (String × PropSpec)
  required : List String
  order : List String
  extra_options : List String
  secret : List String
deriving DecidableEq, Repr

/-- Python's `list.insert(i, a)` (clamping at the end of the list). -/
def pyInsert (l : List α) (i : Nat) (a : α) : List α :=
  match i, l with
  | 0, l => a :: l
  | _ + 1, [] => [a]
  | n + 1, x :: xs => x :: pyInsert xs n a

/-- `configuration_schema` (athena.py lines 70–147) as a function of the
three environment toggles `SHOW_EXTRA_SETTINGS`, `ASSUME_ROLE` and
`OPTIONAL_CREDENTIALS`, mirroring the source's base schema and its
toggle-driven mutations in order. -/
def configuration_schema (showExtra assumeRole optionalCreds : Bool) :
    ConfigurationSchema :=
  let props0 : List (String × PropSpec) :=
    [ ("region", { type := "string", title := "AWS Region", defaultVal := none })
    , ("aws_access_key", { type := "string", title := "AWS Access Key", defaultVal := none })
    , ("aws_secret_key", { type := "string", title := "AWS Secret Key", defaultVal := none })
    , ("s3_staging_dir",
        { type := "string", title := "S3 Staging (Query Results) Bucket Path"
        , defaultVal := none })
    , ("schema",
        { type := "string", title := "Schema Name"
        , defaultVal := some (JsonVal.str "default") })
    , ("glue", { type := "boolean", title := "Use Glue Data Catalog", defaultVal := none })
    , ("work_group",
        { type := "string", title := "Athena Work Group"
        , defaultVal := some (JsonVal.str "primary") })
    , ("cost_per_tb",
        { type := "number", title := "Athena cost per Tb scanned (USD)"
        , defaultVal := some (JsonVal.num 5) }) ]
  let required0 := ["region", "s3_staging_dir"]
  let extra0 := ["glue", "cost_per_tb"]
  let order0 := ["region", "s3_staging_dir", "schema", "work_group", "cost_per_tb"]
  let secret0 := ["aws_secret_key"]
  let props1 :=
    if showExtra then
      props0 ++
        [ ("encryption_option",
            { type := "string", title := "Encryption Option", defaultVal := none })
        , ("kms_key", { type := "string", title := "KMS Key", defaultVal := none }) ]
    else props0
  let extra1 := if showExtra then extra0 ++ ["encryption_option", "kms_key"] else extra0
  let props2 :=
    if assumeRole then
      (props1.filter (fun p => !(p.1 == "aws_access_key") && !(p.1 == "aws_secret_key"))) ++
        [ ("iam_role", { type := "string", title := "IAM role to assume", defaultVal := none })
        , ("external_id",
            { type := "string", title := "External ID to be used while STS assume role"
            , defaultVal := none }) ]
    else props1
  let secret2 := if assumeRole then [] else secret0
  let order2 :=
    if assumeRole then pyInsert (pyInsert order0 1 "iam_role") 2 "external_id"
    else pyInsert (pyInsert order0 1 "aws_access_key") 2 "aws_secret_key"
  let required2 :=
    if !optionalCreds && !assumeRole then
      required0 ++ ["aws_access_key", "aws_secret_key"]
    else required0
  { properties := props2, required := required2, order := order2
  , extra_options := extra1, secret := secret2 }

/-- One row of the introspection query's result (athena.py lines 214–218):
`table_schema`, `table_name`, `column_name`. -/
structure IRow where
  table_schema : String
  table_name : String
  column_name : String
deriving DecidableEq, Repr

/-- `"{0}.{1}".format(row["table_schema"], row["table_name"])`
(athena.py line 226). -/
def fqn (r : IRow) : String :=
  r.table_schema ++ "." ++ r.table_name

/-- One loop iteration of `get_schema` (athena.py lines 225–229): create the
entry on first sight of the fully-qualified name, then append the row's
column name to that entry's column list. -/
def addRow (acc : List (String × List String)) (r : IRow) :
    List (String × List String) :=
  if acc.any (fun p => p.1 == fqn r) then
    acc.map (fun p => if p.1 = fqn r then (p.1, p.2 ++ [r.column_name]) else p)
  else
    acc ++ [(fqn r, [r.column_name])]

/-- The grouping loop of `get_schema` over all introspection rows. -/
def groupRows (rows : List IRow) : List (String × List String) :=
  rows.foldl addRow []

/-- `get_schema` on the introspection path (athena.py lines 209–231), as a
function of the `(results, error)` pair produced by `run_query` on the
introspection statement.  A non-null error raises
`Exception("Failed getting schema.")`; a null results document makes
`json_loads` raise; otherwise the rows are grouped by fully-qualified table
name. -/
def get_schema (results : Option (List IRow)) (error : Option String) :
    Except String (List (String × List String)) :=
  match error with
  | some _ => Except.error "Failed getting schema."
  | none =>
    match results with
    | none => Except.error "json_loads raised on a null results document"
    | some rows => Except.ok (groupRows rows)

/-- Projection onto the result payload of a run whose outcome is a returned
pair carrying a result document and a null error. -/
def resultOf (r : RunEffect) : Option ResultData :=
  match r.outcome with
  | Outcome.ret (some (JsonDoc.result d)) none => some d
  | _ => none

/-- Invariant of the grouping loop of `get_schema`: after processing the rows
in `processed`, the accumulator has pairwise-distinct fully-qualified names,
holds exactly the names seen so far, and each entry's column list is the
column names of the processed rows with that name, in row order. -/
def entriesInv (acc : List (String × List String)) (processed : List IRow) : Prop :=
  (acc.map Prod.fst).Nodup
  ∧ (∀ n : String, n ∈ acc.map Prod.fst ↔ n ∈ processed.map fqn)
  ∧ (∀ p ∈ acc, p.2 = (processed.filter (fun x => fqn x == p.1)).map IRow.column_name)

theorem lookup_eq_none_of_not_mem {β : Type} (s : String) :
    ∀ l : List (String × β), s ∉ l.map Prod.fst → l.lookup s = none := by
  intro l
  induction l with
  | nil => intro _; rfl
  | cons p t ih =>
    intro h
    rw [List.map_cons, List.mem_cons] at h
    push_neg at h
    obtain ⟨k, b⟩ := p
    have hb : (s == k) = false := by
      simp only [beq_eq_false_iff_ne, ne_eq]
      exact h.1
    simp [List.lookup, hb, ih h.2]

/-- C1: the type-mapping function sends each documented engine type name to
its documented host semantic type (boolean→Boolean; tinyint, smallint,
integer, bigint→Integer; double, decimal→Float; varchar, varbinary, array,
map, row→String; timestamp→Datetime; date→Date), and every type name absent
from the table is mapped to the null semantic type rather than failing. -/
theorem C1_type_mapping :
    (typeFor "boolean" = some SemType.boolean
      ∧ typeFor "tinyint" = some SemType.integer
      ∧ typeFor "smallint" = some SemType.integer
      ∧ typeFor "integer" = some SemType.integer
      ∧ typeFor "bigint" = some SemType.integer
      ∧ typeFor "double" = some SemType.float
      ∧ typeFor "decimal" = some SemType.float
      ∧ typeFor "varchar" = some SemType.string
      ∧ typeFor "varbinary" = some SemType.string
      ∧ typeFor "array" = some SemType.string
      ∧ typeFor "map" = some SemType.string
      ∧ typeFor "row" = some SemType.string
      ∧ typeFor "timestamp" = some SemType.datetime
      ∧ typeFor "date" = some SemType.date)
    ∧ ∀ s : String, s ∉ _TYPE_MAPPINGS.map Prod.fst → typeFor s = none := by
  constructor
  · exact ⟨rfl, rfl, rfl, rfl, rfl, rfl, rfl, rfl, rfl, rfl, rfl, rfl, rfl, rfl⟩
  · intro s hs
    exact lookup_eq_none_of_not_mem s _TYPE_MAPPINGS hs

/-- Witness for C1 at the unmapped engine type name "json". -/
theorem C1_type_mapping_witness : typeFor "json" = none :=
  C1_type_mapping.2 "json" (by decide)

/-- C3: the claim that `run_query` returns `(null data, null error)` when the
export location is absent or empty fails on the code: on those early-return
paths `athena_query_results_file` is still `None`, the `finally` block calls
`os.remove(None)`, and the resulting `TypeError` is not caught by the
`except OSError` clause of `remove_file`, so it escapes `run_query` in place
of the returned pair.  This theorem evaluates the model at an empty export
location and shows a `TypeError` propagating. -/
theorem C3_empty_location_raises_typeError :
    (run_query
        { queryId := some "q1", outputLocation := Except.ok (some "")
        , description := [("x", "integer")], dataScannedInBytes := some 10 } "r0"
        (FetchEvent.success { header := ["x"], records := [["1"]] })).outcome
      = Outcome.exn PyExn.typeError
    ∧ (run_query
        { queryId := some "q1", outputLocation := Except.error "output location error"
        , description := [("x", "integer")], dataScannedInBytes := some 10 } "r0"
        (FetchEvent.success { header := ["x"], records := [["1"]] })).outcome
      = Outcome.exn PyExn.typeError := by
  exact ⟨rfl, rfl⟩

/-- C5: the claim that an interrupt during retrieval (with a known query
identifier) yields exactly one cancellation call and a returned
`(null, "…cancelled…")` pair fails when the interrupt arrives before the
local export file is created: the single cancellation call is issued and the
cancellation message is assigned, but the `finally` block's `os.remove(None)`
raises `TypeError`, which replaces the return.  This theorem evaluates the
model at such an early interrupt. -/
theorem C5_early_interrupt_raises_typeError :
    (run_query
        { queryId := some "qid1", outputLocation := Except.ok (some "s3://bucket/key.csv")
        , description := [], dataScannedInBytes := none } "r0"
        FetchEvent.interruptBeforeFile).outcome
      = Outcome.exn PyExn.typeError
    ∧ (run_query
        { queryId := some "qid1", outputLocation := Except.ok (some "s3://bucket/key.csv")
        , description := [], dataScannedInBytes := none } "r0"
        FetchEvent.interruptBeforeFile).cancels = 1 := by
  exact ⟨rfl, rfl⟩

/-- C7: for every combination of the environment toggles, the configuration
schema has no static access-key or secret-key property and an empty
secret-field list when assume-role mode is on; when assume-role mode is off,
both properties are present, and the keys are listed as required with the
secret key marked secret exactly when the credentials-optional toggle is
off. -/
theorem C7_configuration_schema (se ar oc : Bool) :
    (ar = true →
      "aws_access_key" ∉ (configuration_schema se ar oc).properties.map Prod.fst
      ∧ "aws_secret_key" ∉ (configuration_schema se ar oc).properties.map Prod.fst
      ∧ (configuration_schema se ar oc).secret = [])
    ∧ (ar = false →
      "aws_access_key" ∈ (configuration_schema se ar oc).properties.map Prod.fst
      ∧ "aws_secret_key" ∈ (configuration_schema se ar oc).properties.map Prod.fst
      ∧ ((("aws_access_key" ∈ (configuration_schema se ar oc).required
            ∧ "aws_secret_key" ∈ (configuration_schema se ar oc).required)
          ∧ "aws_secret_key" ∈ (configuration_schema se ar oc).secret)
         ↔ oc = false)) := by
  cases se <;> cases ar <;> cases oc <;> decide

/-- Witness for C7 with all toggles on. -/
theorem C7_configuration_schema_witness :
    "aws_access_key" ∉ (configuration_schema true true true).properties.map Prod.fst
    ∧ "aws_secret_key" ∉ (configuration_schema true true true).properties.map Prod.fst
    ∧ (configuration_schema true true true).secret = [] :=
  (C7_configuration_schema true true true).1 rfl

theorem locationUsable_some {loc : String} (hne : loc ≠ "") :
    locationUsable (some loc) = true := by
  simp [locationUsable, hne]

/-- The export-file retrieval on the successful path: with a usable export
location and a successful download and parse, the run returns the assembled
result document with a null error, issues no cancellation, and the created
local file is gone on return. -/
theorem run_query_success (c : CursorDesc) (randId : String) (f : CsvFile)
    (loc : String) (hloc : c.outputLocation = Except.ok (some loc))
    (hne : loc ≠ "") :
    run_query c randId (FetchEvent.success f) =
      { outcome := Outcome.ret (some (JsonDoc.result
          { columns := fetch_columns (c.description.map (fun i => (i.1, typeFor i.2)))
          , rows := dictReaderRows f
          , metadata :=
              { data_scanned := c.dataScannedInBytes
              , athena_query_id := c.queryId.getD ("temp_" ++ randId)
              , query_cost := none } })) none
      , cancels := 0, fileCreated := true, fileExists := false } := by
  have hl := locationUsable_some hne
  simp [run_query, get_query_result_from_file, tryPhase, applyCleanup, remove_file,
        hloc, hl]

/-- C4: when the object-storage download raises the distinguishable
"not found" fault (a `ClientError` whose message names a 404 on `HeadObject`),
`run_query` returns the empty JSON payload together with a null error rather
than reporting a failure. -/
theorem C4_not_found_is_empty_success (c : CursorDesc) (randId msg loc : String)
    (hloc : c.outputLocation = Except.ok (some loc)) (hne : loc ≠ "")
    (h404 : isNotFound msg = true) :
    (run_query c randId (FetchEvent.clientError msg)).outcome
      = Outcome.ret (some JsonDoc.empty) none := by
  have hl := locationUsable_some hne
  simp [run_query, get_query_result_from_file, tryPhase, applyCleanup, remove_file,
        hloc, hl, h404]

/-- Witness for C4 at a concrete 404-on-HeadObject storage fault. -/
theorem C4_not_found_is_empty_success_witness :
    (run_query
        { queryId := some "q4", outputLocation := Except.ok (some "s3://bucket/out.csv")
        , description := [("a", "varchar")], dataScannedInBytes := some 7 } "r0"
        (FetchEvent.clientError
          "An error occurred (404) when calling the HeadObject operation: Not Found")).outcome
      = Outcome.ret (some JsonDoc.empty) none :=
  C4_not_found_is_empty_success _ "r0"
    "An error occurred (404) when calling the HeadObject operation: Not Found"
    "s3://bucket/out.csv" rfl (by decide) (by decide)

/-- Counterexample for C9: a successful `run_query` over the export-file path
whose result metadata carries no computed query cost — refuting the claim
that every successful result's metadata carries the cost (only the unused
cursor-streamed function computes `query_cost`). -/
theorem C9_success_without_query_cost :
    (resultOf (run_query
        { queryId := some "q9", outputLocation := Except.ok (some "s3://bucket/path.csv")
        , description := [("n", "integer")], dataScannedInBytes := some 1024 } "r0"
        (FetchEvent.success { header := ["n"], records := [["1"]] }))).map
      (fun d => d.metadata.query_cost) = some none := by
  rfl

/-- C9 (amended): every successful `run_query` result's metadata carries the
scanned-byte count and the query identifier, but no computed query cost — the
cost computation exists only in the cursor-streamed retrieval function, which
`run_query` does not invoke. -/
theorem C9_metadata_contents (c : CursorDesc) (randId : String) (f : CsvFile)
    (loc : String) (hloc : c.outputLocation = Except.ok (some loc))
    (hne : loc ≠ "") :
    ∃ d : ResultData,
      (run_query c randId (FetchEvent.success f)).outcome
        = Outcome.ret (some (JsonDoc.result d)) none
      ∧ d.metadata.data_scanned = c.dataScannedInBytes
      ∧ d.metadata.athena_query_id = c.queryId.getD ("temp_" ++ randId)
      ∧ d.metadata.query_cost = none := by
  exact ⟨_, by rw [run_query_success c randId f loc hloc hne], rfl, rfl, rfl⟩

/-- Witness for C9's amended theorem at a concrete successful run. -/
theorem C9_metadata_contents_witness :
    ∃ d : ResultData,
      (run_query
          { queryId := some "q9", outputLocation := Except.ok (some "s3://bucket/path.csv")
          , description := [("n", "integer")], dataScannedInBytes := some 1024 } "r0"
          (FetchEvent.success { header := ["n"], records := [["1"]] })).outcome
        = Outcome.ret (some (JsonDoc.result d)) none
      ∧ d.metadata.data_scanned
          = ({ queryId := some "q9", outputLocation := Except.ok (some "s3://bucket/path.csv")
             , description := [("n", "integer")], dataScannedInBytes := some 1024 }
              : CursorDesc).dataScannedInBytes
      ∧ d.metadata.athena_query_id = (some "q9").getD ("temp_" ++ "r0")
      ∧ d.metadata.query_cost = none :=
  C9_metadata_contents _ "r0" { header := ["n"], records := [["1"]] }
    "s3://bucket/path.csv" rfl (by decide)

/-- C2: whenever a retrieval created the local export file, the file no
longer exists when `run_query` returns, on every exit path (success, storage
fault, cancellation, or any other exception); and a second removal of the
already-missing file is swallowed — it raises nothing and leaves the file
absent. -/
theorem C2_local_file_cleanup (c : CursorDesc) (randId : String) (ev : FetchEvent)
    (h : (run_query c randId ev).fileCreated = true) :
    (run_query c randId ev).fileExists = false
    ∧ remove_file (some (c.queryId.getD ("temp_" ++ randId))) false = (none, false) := by
  refine ⟨?_, rfl⟩
  rcases c with ⟨qid, oloc, desc, scanned⟩
  cases oloc with
  | error m =>
      simp [run_query, get_query_result_from_file, tryPhase, applyCleanup,
            remove_file] at h
  | ok loc =>
    by_cases hl : locationUsable loc = false
    · simp [run_query, get_query_result_from_file, tryPhase, applyCleanup,
            remove_file, hl] at h
    · cases ev with
      | success f =>
          simp [run_query, get_query_result_from_file, tryPhase, applyCleanup,
                remove_file, hl]
      | clientError msg =>
          by_cases h404 : isNotFound msg = true <;>
            simp [run_query, get_query_result_from_file, tryPhase, applyCleanup,
                  remove_file, hl, h404]
      | interruptBeforeFile =>
          cases qid <;>
            simp [run_query, get_query_result_from_file, tryPhase, applyCleanup,
                  remove_file, handlerCancel, hl] at h
      | failBeforeFile msg =>
          cases qid <;>
            simp [run_query, get_query_result_from_file, tryPhase, applyCleanup,
                  remove_file, handlerCancel, hl] at h
      | interruptAfterFile =>
          cases qid <;>
            simp [run_query, get_query_result_from_file, tryPhase, applyCleanup,
                  remove_file, handlerCancel, hl]
      | failAfterFile msg =>
          cases qid <;>
            simp [run_query, get_query_result_from_file, tryPhase, applyCleanup,
                  remove_file, handlerCancel, hl]

/-- Witness for C2 at a cancellation after the file was created. -/
theorem C2_local_file_cleanup_witness :
    (run_query
        { queryId := some "qw2", outputLocation := Except.ok (some "s3://bucket/w.csv")
        , description := [], dataScannedInBytes := none } "r0"
        FetchEvent.interruptAfterFile).fileExists = false
    ∧ remove_file (some ((some "qw2").getD ("temp_" ++ "r0"))) false = (none, false) :=
  C2_local_file_cleanup _ "r0" FetchEvent.interruptAfterFile (by decide)

/-- C6: a successful export-file retrieval over a file of N data records
whose header row carries the handle's K (distinct) column names produces a
result with exactly N row objects, each holding exactly K keys equal to the
K column descriptors' names in descriptor order.  (The association-list model
of a row coincides with the Python dict built by `csv.DictReader` precisely
when the header names are distinct, hence the `Nodup` hypothesis.) -/
theorem C6_round_trip (c : CursorDesc) (randId : String) (f : CsvFile)
    (loc : String) (hloc : c.outputLocation = Except.ok (some loc))
    (hne : loc ≠ "")
    (hheader : f.header = c.description.map Prod.fst)
    (hnodup : f.header.Nodup)
    (hlen : ∀ rec ∈ f.records, rec.length = c.description.length) :
    ∃ d : ResultData,
      (run_query c randId (FetchEvent.success f)).outcome
        = Outcome.ret (some (JsonDoc.result d)) none
      ∧ d.rows.length = f.records.length
      ∧ d.columns.map Column.name = c.description.map Prod.fst
      ∧ ∀ row ∈ d.rows, row.map Prod.fst = d.columns.map Column.name := by
  refine ⟨_, by rw [run_query_success c randId f loc hloc hne], ?_, ?_, ?_⟩
  · simp [dictReaderRows]
  · simp [fetch_columns]
  · intro row hrow
    simp only [dictReaderRows, List.mem_map] at hrow
    obtain ⟨rec, hrec, hrw⟩ := hrow
    have hle : f.header.length ≤ rec.length := by
      rw [hheader, List.length_map]
      exact (hlen rec hrec).ge
    have hzip : (f.header.zip rec).map Prod.fst = f.header :=
      List.map_fst_zip f.header rec hle
    subst hrw
    simp only [List.map_map, fetch_columns]
    calc ((f.header.zip rec).map
            ((fun p : String × JsonVal => p.1) ∘ fun p : String × String => (p.1, JsonVal.str p.2)))
        = (f.header.zip rec).map Prod.fst := by rfl
      _ = f.header := hzip
      _ = c.description.map Prod.fst := hheader
      _ = c.description.map
            ((fun c : Column => c.name) ∘ fun i : String × String =>
              ({ name := i.1, type := typeFor i.2 } : Column)) := by rfl

/-- Witness for C6 at a concrete two-column, two-record export file. -/
theorem C6_round_trip_witness :
    ∃ d : ResultData,
      (run_query
          { queryId := some "q6", outputLocation := Except.ok (some "s3://bucket/six.csv")
          , description := [("a", "integer"), ("b", "varchar")]
          , dataScannedInBytes := some 5 } "r0"
          (FetchEvent.success { header := ["a", "b"], records := [["1", "x"], ["2", "y"]] })).outcome
        = Outcome.ret (some (JsonDoc.result d)) none
      ∧ d.rows.length
          = ({ header := ["a", "b"], records := [["1", "x"], ["2", "y"]] } : CsvFile).records.length
      ∧ d.columns.map Column.name
          = ([("a", "integer"), ("b", "varchar")] : List (String × String)).map Prod.fst
      ∧ ∀ row ∈ d.rows, row.map Prod.fst = d.columns.map Column.name :=
  C6_round_trip _ "r0" _ "s3://bucket/six.csv" rfl (by decide) (by decide) (by decide)
    (by decide)

/-- C10: on the export-file path, for a well-formed export file (non-empty
header of distinct names, every record as long as the header — the format of
a genuine engine export, and exactly the domain on which the row model
coincides with `csv.DictReader`), every cell value of every row object is the
raw text string parsed from the delimited file — no value is converted to the
column's mapped semantic type — and the rows are identical for any two column
descriptions, so the descriptors' recorded types never influence the
values. -/
theorem C10_raw_text_values (c : CursorDesc) (desc2 : List (String × String))
    (randId : String) (f : CsvFile) (loc : String)
    (hloc : c.outputLocation = Except.ok (some loc)) (hne : loc ≠ "")
    (hhead : f.header ≠ [])
    (hnodup : f.header.Nodup)
    (hlen : ∀ rec ∈ f.records, rec.length = f.header.length) :
    ∃ d d2 : ResultData,
      (run_query c randId (FetchEvent.success f)).outcome
        = Outcome.ret (some (JsonDoc.result d)) none
      ∧ (run_query { c with description := desc2 } randId (FetchEvent.success f)).outcome
        = Outcome.ret (some (JsonDoc.result d2)) none
      ∧ d.rows = d2.rows
      ∧ ∀ row ∈ d.rows, ∀ cell ∈ row,
          ∃ s : String, cell.2 = JsonVal.str s ∧ s ∈ f.records.flatten := by
  have hloc2 : ({ c with description := desc2 } : CursorDesc).outputLocation
      = Except.ok (some loc) := hloc
  refine ⟨{ columns := fetch_columns (c.description.map (fun i => (i.1, typeFor i.2)))
          , rows := dictReaderRows f
          , metadata :=
              { data_scanned := c.dataScannedInBytes
              , athena_query_id := c.queryId.getD ("temp_" ++ randId)
              , query_cost := none } },
        { columns := fetch_columns (desc2.map (fun i => (i.1, typeFor i.2)))
          , rows := dictReaderRows f
          , metadata :=
              { data_scanned := c.dataScannedInBytes
              , athena_query_id := c.queryId.getD ("temp_" ++ randId)
              , query_cost := none } },
        by rw [run_query_success c randId f loc hloc hne],
        by rw [run_query_success { c with description := desc2 } randId f loc hloc2 hne],
        rfl, ?_⟩
  intro row hrow cell hcell
  simp only [dictReaderRows, List.mem_map] at hrow
  obtain ⟨rec, hrec, hrw⟩ := hrow
  subst hrw
  simp only [List.mem_map] at hcell
  obtain ⟨p, hp, hpc⟩ := hcell
  refine ⟨p.2, by rw [← hpc], ?_⟩
  rw [List.mem_flatten]
  exact ⟨rec, hrec, (List.of_mem_zip (by exact hp)).2⟩

/-- Witness for C10 at a concrete well-formed file and two different
descriptions. -/
theorem C10_raw_text_values_witness :
    ∃ d d2 : ResultData,
      (run_query
          { queryId := some "qx", outputLocation := Except.ok (some "s3://bucket/ten.csv")
          , description := [("a", "integer")], dataScannedInBytes := none } "r0"
          (FetchEvent.success { header := ["a"], records := [["17"]] })).outcome
        = Outcome.ret (some (JsonDoc.result d)) none
      ∧ (run_query
          { queryId := some "qx", outputLocation := Except.ok (some "s3://bucket/ten.csv")
          , description := [("a", "timestamp")], dataScannedInBytes := none } "r0"
          (FetchEvent.success { header := ["a"], records := [["17"]] })).outcome
        = Outcome.ret (some (JsonDoc.result d2)) none
      ∧ d.rows = d2.rows
      ∧ ∀ row ∈ d.rows, ∀ cell ∈ row,
          ∃ s : String, cell.2 = JsonVal.str s
            ∧ s ∈ ({ header := ["a"], records := [["17"]] } : CsvFile).records.flatten :=
  C10_raw_text_values
    { queryId := some "qx", outputLocation := Except.ok (some "s3://bucket/ten.csv")
    , description := [("a", "integer")], dataScannedInBytes := none }
    [("a", "timestamp")] "r0" { header := ["a"], records := [["17"]] }
    "s3://bucket/ten.csv" rfl (by decide) (by decide) (by decide) (by decide)

theorem filter_fqn_eq_nil (n : String) (l : List IRow) (h : n ∉ l.map fqn) :
    l.filter (fun x => fqn x == n) = [] := by
  induction l with
  | nil => rfl
  | cons r t ih =>
    rw [List.map_cons, List.mem_cons] at h
    push_neg at h
    have hb : (fqn r == n) = false := by
      simp only [beq_eq_false_iff_ne, ne_eq]
      exact fun he => h.1 he.symm
    rw [List.filter_cons, hb]
    simpa using ih h.2

theorem filter_append_single (l : List IRow) (r : IRow) (n : String) :
    (l ++ [r]).filter (fun x => fqn x == n)
      = l.filter (fun x => fqn x == n) ++ (if (fqn r == n) = true then [r] else []) := by
  rw [List.filter_append]
  by_cases h : (fqn r == n) = true <;> simp [List.filter_cons, h]

theorem entriesInv_addRow (acc : List (String × List String))
    (processed : List IRow) (r : IRow) (h : entriesInv acc processed) :
    entriesInv (addRow acc r) (processed ++ [r]) := by
  obtain ⟨hnd, hiff, hcols⟩ := h
  by_cases hmem : acc.any (fun p => p.1 == fqn r) = true
  · have hmem2 : fqn r ∈ acc.map Prod.fst := by
      rw [List.any_eq_true] at hmem
      obtain ⟨p, hp, hpe⟩ := hmem
      rw [beq_iff_eq] at hpe
      rw [← hpe]
      exact List.mem_map_of_mem Prod.fst hp
    have hk : (acc.map (fun p => if p.1 = fqn r then (p.1, p.2 ++ [r.column_name]) else p)).map
        Prod.fst = acc.map Prod.fst := by
      rw [List.map_map]
      apply List.map_congr_left
      intro p _
      by_cases hpf : p.1 = fqn r <;> simp [hpf]
    rw [addRow, if_pos hmem]
    refine ⟨?_, ?_, ?_⟩
    · rw [hk]; exact hnd
    · intro n
      rw [hk, List.map_append, List.mem_append]
      constructor
      · intro hn; exact Or.inl ((hiff n).mp hn)
      · rintro (hn | hn)
        · exact (hiff n).mpr hn
        · simp only [List.map_cons, List.map_nil, List.mem_singleton] at hn
          rw [hn]; exact hmem2
    · intro q hq
      rw [List.mem_map] at hq
      obtain ⟨p, hp, hqp⟩ := hq
      by_cases hpf : p.1 = fqn r
      · rw [if_pos hpf] at hqp
        rw [← hqp, filter_append_single]
        simp [hpf, hcols p hp]
      · rw [if_neg hpf] at hqp
        rw [← hqp, filter_append_single]
        have hfr : (fqn r == p.1) = false := by
          simp only [beq_eq_false_iff_ne, ne_eq]
          exact fun he => hpf he.symm
        simp [hfr, hcols p hp]
  · have hnotin : fqn r ∉ acc.map Prod.fst := by
      intro hin
      apply hmem
      rw [List.mem_map] at hin
      obtain ⟨p, hp, hpe⟩ := hin
      rw [List.any_eq_true]
      exact ⟨p, hp, by rw [beq_iff_eq]; exact hpe⟩
    rw [addRow, if_neg hmem]
    refine ⟨?_, ?_, ?_⟩
    · rw [List.map_append]
      rw [List.nodup_append]
      refine ⟨hnd, List.nodup_singleton _, ?_⟩
      intro a ha hb
      simp only [List.map_cons, List.map_nil, List.mem_singleton] at hb
      rw [hb] at ha
      exact hnotin ha
    · intro n
      rw [List.map_append, List.mem_append, List.map_append, List.mem_append]
      simp only [List.map_cons, List.map_nil, List.mem_singleton]
      exact or_congr_left (hiff n)
    · intro q hq
      rw [List.mem_append] at hq
      rcases hq with hq | hq
      · have hne : fqn r ≠ q.1 := by
          intro he
          apply hnotin
          rw [he]
          exact List.mem_map_of_mem Prod.fst hq
        have hfr : (fqn r == q.1) = false := by
          simp only [beq_eq_false_iff_ne, ne_eq]
          exact hne
        rw [filter_append_single]
        simp [hfr, hcols q hq]
      · simp only [List.mem_singleton] at hq
        have hnp : fqn r ∉ processed.map fqn := fun hin => hnotin ((hiff (fqn r)).mpr hin)
        rw [hq, filter_append_single]
        simp [filter_fqn_eq_nil (fqn r) processed hnp]

theorem entriesInv_foldl (rows : List IRow) :
    ∀ (acc : List (String × List String)) (processed : List IRow),
      entriesInv acc processed →
      entriesInv (rows.foldl addRow acc) (processed ++ rows) := by
  induction rows with
  | nil => intro acc processed h; simpa using h
  | cons r t ih =>
    intro acc processed h
    rw [List.foldl_cons]
    have h2 := ih (addRow acc r) (processed ++ [r]) (entriesInv_addRow acc processed r h)
    simpa using h2

/-- C8: schema discovery from introspection rows groups the rows by the
fully-qualified name `database.table` — exactly one entry per distinct name,
holding the rows' column names in first-seen (row) order; in particular the
rows `(s1,t1,c1)` and `(s1,t1,c2)` produce the single entry `s1.t1` with
columns `[c1, c2]`; and a non-null error from the underlying query submission
makes the discovery call fail hard. -/
theorem C8_schema_grouping :
    (∀ rows : List IRow,
      ((groupRows rows).map Prod.fst).Nodup
      ∧ (∀ n : String, n ∈ (groupRows rows).map Prod.fst ↔ n ∈ rows.map fqn)
      ∧ (∀ p ∈ groupRows rows,
          p.2 = (rows.filter (fun x => fqn x == p.1)).map IRow.column_name))
    ∧ get_schema (some [⟨"s1", "t1", "c1"⟩, ⟨"s1", "t1", "c2"⟩]) none
        = Except.ok [("s1.t1", ["c1", "c2"])]
    ∧ (∀ (res : Option (List IRow)) (e : String),
        get_schema res (some e) = Except.error "Failed getting schema.") := by
  refine ⟨?_, rfl, fun _ _ => rfl⟩
  intro rows
  have h := entriesInv_foldl rows [] [] ⟨List.nodup_nil, by simp, by simp⟩
  simpa [groupRows, entriesInv] using h

/-- Witness for C8 at a concrete one-row introspection result. -/
theorem C8_schema_grouping_witness :
    (("s1.t1", ["c1"]) : String × List String).2
      = (([⟨"s1", "t1", "c1"⟩] : List IRow).filter
          (fun x => fqn x == (("s1.t1", ["c1"]) : String × List String).1)).map
        IRow.column_name :=
  (C8_schema_grouping.1 [⟨"s1", "t1", "c1"⟩]).2.2 ("s1.t1", ["c1"]) (by decide)

end Athena
